import Mathlib

/-
Verification of the legal-document analysis service
(src/NIL_doc_parser.py and src/response_formats.py).

The Python program is a single Flask endpoint that accepts a multipart
upload, persists it to a temporary path, converts it to markdown with an
external document converter, deletes the temporary file, and then issues
two sequential structured-output requests to an external language-model
service: a validation call returning a LegalDocumentCheck and an
extraction call returning a LegalSummaryData.

We embed the handler shallowly:
  - the external collaborators (the converter and the two model calls)
    are oracles supplied in an environment record, each returning
    Except String to model a Python exception as an error value;
  - the filesystem is an explicit map from paths to file contents;
  - the calls the handler makes to its collaborators are recorded in an
    event trace so that properties such as "no Stage 2 call is issued"
    are stable statements about a run;
  - process-wide state touched by the module (the logging configuration
    and the dotenv load) is an explicit record threaded through the
    handler;
  - the float confidence_level is modelled as a rational number, and the
    literal 0.8 of the gate as the rational 0.8.
-/

namespace NILDocParser

/-- Numeric value of logging.INFO in the Python logging module. -/
def LOG_INFO : Nat := 20

/-- Schema LegalDocumentCheck from src/response_formats.py: result of the
Stage 1 validation call. -/
structure LegalDocumentCheck where
  valid_document : Bool
  confidence_level : ℚ
  deriving DecidableEq

/-- Schema LegalParty from src/response_formats.py. -/
structure LegalParty where
  name : String
  role : String
  contact_info : Option String
  deriving DecidableEq

/-- Schema LegalSummaryData from src/response_formats.py: result of the
Stage 2 extraction call and the success payload of the endpoint. -/
structure LegalSummaryData where
  document_type : String
  effective_date : String
  expiration_date : Option String
  parties : List LegalParty
  key_terms : List String
  obligations : List String
  governing_law : Option String
  deriving DecidableEq

/-- A role-tagged chat message, as in the messages list built by
analyze_document. -/
structure Message where
  role : String
  content : String
  deriving DecidableEq

/-- Configuration constant MODEL of src/NIL_doc_parser.py. -/
def MODEL : String := "gpt-4o-mini"

/-- Configuration constant MAX_PAGES of src/NIL_doc_parser.py. -/
def MAX_PAGES : Nat := 20

/-- Model of a docling DoclingDocument: the only capability the handler
uses is export_to_markdown, which may raise. -/
structure DoclingDocument where
  export_to_markdown : Except String String

/-- Oracle for the hosted language-model service: the two structured
parse calls issued by analyze_document, each of which may raise. -/
structure LLMOracle where
  parseCheck : List Message → Except String LegalDocumentCheck
  parseSummary : List Message → Except String LegalSummaryData

/-- Environment of external collaborators: the document converter
(convert with a path and a page ceiling, which may raise) and the
language-model service. -/
structure Env where
  converter : String → Nat → Except String DoclingDocument
  llm : LLMOracle

/-- parse_document of src/NIL_doc_parser.py: invoke the converter on the
given path with max_num_pages set to MAX_PAGES. -/
def parse_document (env : Env) (document_path : String) :
    Except String DoclingDocument :=
  env.converter document_path MAX_PAGES

/-- The three-message history built at the top of analyze_document. -/
def initialMessages (document : String) : List Message :=
  [⟨"system", "You are a helpful legal document interpreter."⟩,
   ⟨"developer",
    "A user will attach a document containing a legal contract. Analyze its content."⟩,
   ⟨"user", document⟩]

/-- The single instruction turn appended between Stage 1 and Stage 2 in
analyze_document. -/
def extractionTurn : Message :=
  ⟨"developer", "Extract most important details from the user's document."⟩

/-- Observable calls the handler makes to its collaborators and to the
filesystem. -/
inductive Event where
  | saveFile (path : String) (content : String)
  | convertCall (path : String) (maxPages : Nat)
  | removeFile (path : String)
  | stage1Call (messages : List Message)
  | stage2Call (messages : List Message)
  deriving DecidableEq

/-- analyze_document of src/NIL_doc_parser.py: Stage 1 requests a
LegalDocumentCheck on the three-message history; if the document is not
valid or the confidence is below 0.8 a ValueError is raised; otherwise
one instruction turn is appended and Stage 2 requests a
LegalSummaryData. Returns the result together with the trace of model
calls actually issued. -/
def analyze_document (llm : LLMOracle) (document : String) :
    Except String LegalSummaryData × List Event :=
  let messages := initialMessages document
  match llm.parseCheck messages with
  | .error e => (.error e, [.stage1Call messages])
  | .ok legal_doc_check =>
    if legal_doc_check.valid_document = false
        ∨ legal_doc_check.confidence_level < (0.8 : ℚ) then
      (.error "Failed to identify as a legal document", [.stage1Call messages])
    else
      let messages2 := messages ++ [extractionTurn]
      match llm.parseSummary messages2 with
      | .error e => (.error e, [.stage1Call messages, .stage2Call messages2])
      | .ok summary_data =>
        (.ok summary_data, [.stage1Call messages, .stage2Call messages2])

/-- A file part of the multipart request: Werkzeug FileStorage as used by
the handler (filename and raw content). -/
structure FileStorage where
  filename : String
  content : String
  deriving DecidableEq

/-- An incoming request: the optional file part under the field name
file. -/
structure Request where
  file : Option FileStorage

/-- Process-wide mutable state of the module: how many console handlers
have been attached to the module logger, the logger level (none models
NOTSET), and whether the .env file has been loaded. -/
structure ProcessState where
  consoleHandlers : Nat
  logLevel : Option Nat
  dotenvLoaded : Bool
  deriving DecidableEq

/-- Process state before the module is imported. -/
def initialProcessState : ProcessState :=
  { consoleHandlers := 0, logLevel := none, dotenvLoaded := false }

/-- Module import time (lines 20 to 27 of src/NIL_doc_parser.py): one
console handler is attached to the module logger. The logger level is
not set here. -/
def moduleInit (ps : ProcessState) : ProcessState :=
  { ps with consoleHandlers := ps.consoleHandlers + 1 }

/-- The JSON body of a response: either an error envelope or the success
envelope with its success flag, document_name and summary fields. -/
inductive ResponseBody where
  | error (msg : String)
  | success (success : Bool) (document_name : String)
      (summary : LegalSummaryData)
  deriving DecidableEq

/-- An HTTP response: JSON body and status code. -/
structure Response where
  body : ResponseBody
  status : Nat
  deriving DecidableEq

/-- The filesystem: a map from paths to file contents. -/
def FS : Type := String → Option String

/-- The temporary path the handler derives from the original filename. -/
def temp_path (filename : String) : String := "temp_" ++ filename

/-- Everything observable about one run of the handler. -/
structure HandlerResult where
  response : Response
  fs : FS
  events : List Event
  procState : ProcessState

/-- process_legal_document of src/NIL_doc_parser.py: the body of the
POST /analyze-legal-document endpoint. Inside the try block the handler
sets the logger level, loads the .env file, checks the file part, saves
the upload to the temporary path, converts it, exports markdown, removes
the temporary file and runs the two-stage analysis; any error escaping a
step is caught by the single except clause and returned as a 500 error
envelope. -/
def process_legal_document (env : Env) (req : Request) (fs : FS)
    (ps : ProcessState) : HandlerResult :=
  let ps := { ps with logLevel := some LOG_INFO }
  let ps := { ps with dotenvLoaded := true }
  match req.file with
  | none => ⟨⟨.error "No file provided", 400⟩, fs, [], ps⟩
  | some file =>
    if file.filename = "" then
      ⟨⟨.error "No file selected", 400⟩, fs, [], ps⟩
    else
      let tp := temp_path file.filename
      let fs1 : FS := fun p => if p = tp then some file.content else fs p
      let events := [Event.saveFile tp file.content,
                     Event.convertCall tp MAX_PAGES]
      match parse_document env tp with
      | .error e => ⟨⟨.error e, 500⟩, fs1, events, ps⟩
      | .ok document =>
        match document.export_to_markdown with
        | .error e => ⟨⟨.error e, 500⟩, fs1, events, ps⟩
        | .ok markdown_text =>
          let fs2 : FS := fun p => if p = tp then none else fs1 p
          let events := events ++ [Event.removeFile tp]
          let ar := analyze_document env.llm markdown_text
          match ar.1 with
          | .error e => ⟨⟨.error e, 500⟩, fs2, events ++ ar.2, ps⟩
          | .ok summary_data =>
            ⟨⟨.success true file.filename summary_data, 200⟩, fs2,
             events ++ ar.2, ps⟩

/-- The error message, if any, raised by steps 2 to 6 of the handler on
a given request in a given environment: saving, conversion, markdown
export, cleanup and the two model calls, in program order. -/
def stepError (env : Env) (req : Request) : Option String :=
  match req.file with
  | none => none
  | some file =>
    if file.filename = "" then none
    else
      match parse_document env (temp_path file.filename) with
      | .error e => some e
      | .ok document =>
        match document.export_to_markdown with
        | .error e => some e
        | .ok markdown_text =>
          match (analyze_document env.llm markdown_text).1 with
          | .error e => some e
          | .ok _ => none

/-! Concrete fixtures used by witnesses and counterexamples. -/

/-- A converted document whose markdown export succeeds. -/
def docA : DoclingDocument := ⟨.ok "md"⟩

/-- A sample party. -/
def partyA : LegalParty := ⟨"Alice", "employer", none⟩

/-- A sample extraction result. -/
def summaryA : LegalSummaryData :=
  ⟨"contract", "2024-01-01", none, [partyA], ["term"], ["obligation"], none⟩

/-- An extraction result with every optional field absent. -/
def summaryOptsNone : LegalSummaryData :=
  ⟨"NDA", "2024-02-02", none, [⟨"Bob", "contractor", none⟩], [], [], none⟩

/-- An environment whose converter always succeeds with docA and whose
model calls return the given check and summary. -/
def mkEnv (check : LegalDocumentCheck) (s : LegalSummaryData) : Env :=
  ⟨fun _ _ => .ok docA, ⟨fun _ => .ok check, fun _ => .ok s⟩⟩

/-- An environment whose converter raises with the given message. -/
def envFailConvert (msg : String) : Env :=
  ⟨fun _ _ => .error msg,
   ⟨fun _ => .error "llm unreachable", fun _ => .error "llm unreachable"⟩⟩

/-- A sample uploaded file. -/
def fileA : FileStorage := ⟨"a.pdf", "content-bytes"⟩

/-- A request carrying fileA. -/
def reqA : Request := ⟨some fileA⟩

/-- A request with no file part. -/
def reqNone : Request := ⟨none⟩

/-- A request whose file part has an empty filename. -/
def reqEmpty : Request := ⟨some ⟨"", "x"⟩⟩

/-- An empty filesystem. -/
def fs0 : FS := fun _ => none

/-- Process state right after module import. -/
def ps0 : ProcessState := moduleInit initialProcessState

/-- C3: a request lacking a file part is answered 400 with the error
body saying No file provided, a request whose file part has an empty
filename is answered 400 with the error body saying No file selected,
and in both cases the filesystem is untouched and no collaborator call
is made. -/
theorem missing_or_empty_file_rejected (env : Env) (req : Request) (fs : FS)
    (ps : ProcessState) :
    (req.file = none →
      (process_legal_document env req fs ps).response =
        ⟨.error "No file provided", 400⟩ ∧
      (process_legal_document env req fs ps).fs = fs ∧
      (process_legal_document env req fs ps).events = []) ∧
    (∀ file, req.file = some file → file.filename = "" →
      (process_legal_document env req fs ps).response =
        ⟨.error "No file selected", 400⟩ ∧
      (process_legal_document env req fs ps).fs = fs ∧
      (process_legal_document env req fs ps).events = []) := by
  constructor
  · intro h
    simp [process_legal_document, h]
  · intro file hf hn
    simp [process_legal_document, hf, hn]

theorem missing_or_empty_file_rejected_witness :
    (process_legal_document (mkEnv ⟨true, 1⟩ summaryA) reqNone fs0 ps0).response =
      ⟨.error "No file provided", 400⟩ ∧
    (process_legal_document (mkEnv ⟨true, 1⟩ summaryA) reqEmpty fs0 ps0).response =
      ⟨.error "No file selected", 400⟩ :=
  ⟨((missing_or_empty_file_rejected (mkEnv ⟨true, 1⟩ summaryA) reqNone fs0 ps0).1
      rfl).1,
   ((missing_or_empty_file_rejected (mkEnv ⟨true, 1⟩ summaryA) reqEmpty fs0 ps0).2
      ⟨"", "x"⟩ rfl rfl).1⟩

/-- C9 counterexample: handling a request does reconfigure process-wide
state. Starting from the state left by module import (console handler
attached, logger level NOTSET, dotenv not loaded), one request changes
the process state: the handler sets the logger level to INFO and loads
the .env file. -/
theorem request_changes_process_state :
    (process_legal_document (mkEnv ⟨true, 1⟩ summaryA) reqNone fs0 ps0).procState
      ≠ ps0 := by
  decide

/-- C9 amended: the process-wide mutable state is the logging
configuration and the loaded environment; the console handler is
attached once at module import, but every handled request reconfigures
process-wide state by re-setting the logger level to INFO and re-loading
the .env file, an idempotent update that changes nothing else (in
particular the attached handlers are untouched). -/
theorem handler_process_state_reconfiguration (env : Env) (req : Request)
    (fs : FS) (ps : ProcessState) :
    (process_legal_document env req fs ps).procState =
      { ps with logLevel := some LOG_INFO, dotenvLoaded := true } := by
  unfold process_legal_document
  split
  · rfl
  · split
    · rfl
    · dsimp only
      split
      · rfl
      · split
        · rfl
        · split
          · rfl
          · rfl

/-! Run-shape lemmas: the handler result in each of the four regimes of a
request that passes the file checks. -/

/-- If the converter raises, the handler answers 500 with that message;
the temporary file is still on disk and no model call was made. -/
theorem run_convert_error (env : Env) (req : Request) (fs : FS)
    (ps : ProcessState) (file : FileStorage) (e : String)
    (hf : req.file = some file) (hn : ¬ file.filename = "")
    (hconv : env.converter (temp_path file.filename) MAX_PAGES = .error e) :
    process_legal_document env req fs ps =
      ⟨⟨.error e, 500⟩,
       fun p => if p = temp_path file.filename then some file.content else fs p,
       [Event.saveFile (temp_path file.filename) file.content,
        Event.convertCall (temp_path file.filename) MAX_PAGES],
       { ps with logLevel := some LOG_INFO, dotenvLoaded := true }⟩ := by
  unfold process_legal_document parse_document
  simp only [hf, hn, hconv]
  rfl

/-- If conversion succeeds and markdown export raises, the handler
answers 500 with that message; the temporary file is still on disk and
no model call was made. -/
theorem run_export_error (env : Env) (req : Request) (fs : FS)
    (ps : ProcessState) (file : FileStorage) (document : DoclingDocument)
    (e : String)
    (hf : req.file = some file) (hn : ¬ file.filename = "")
    (hconv : env.converter (temp_path file.filename) MAX_PAGES = .ok document)
    (hexp : document.export_to_markdown = .error e) :
    process_legal_document env req fs ps =
      ⟨⟨.error e, 500⟩,
       fun p => if p = temp_path file.filename then some file.content else fs p,
       [Event.saveFile (temp_path file.filename) file.content,
        Event.convertCall (temp_path file.filename) MAX_PAGES],
       { ps with logLevel := some LOG_INFO, dotenvLoaded := true }⟩ := by
  unfold process_legal_document parse_document
  simp only [hf, hn, hconv, hexp]
  rfl

/-- If conversion and export succeed and the two-stage analysis raises,
the handler answers 500 with that message; the temporary file has been
removed. -/
theorem run_analyze_error (env : Env) (req : Request) (fs : FS)
    (ps : ProcessState) (file : FileStorage) (document : DoclingDocument)
    (markdown_text : String) (e : String)
    (hf : req.file = some file) (hn : ¬ file.filename = "")
    (hconv : env.converter (temp_path file.filename) MAX_PAGES = .ok document)
    (hexp : document.export_to_markdown = .ok markdown_text)
    (ha : (analyze_document env.llm markdown_text).1 = .error e) :
    process_legal_document env req fs ps =
      ⟨⟨.error e, 500⟩,
       fun p => if p = temp_path file.filename then none
                else if p = temp_path file.filename then some file.content
                else fs p,
       [Event.saveFile (temp_path file.filename) file.content,
        Event.convertCall (temp_path file.filename) MAX_PAGES,
        Event.removeFile (temp_path file.filename)] ++
         (analyze_document env.llm markdown_text).2,
       { ps with logLevel := some LOG_INFO, dotenvLoaded := true }⟩ := by
  unfold process_legal_document parse_document
  simp only [hf, hn, hconv, hexp, ha]
  rfl

/-- If every step succeeds, the handler answers 200 with the success
envelope; the temporary file has been removed. -/
theorem run_analyze_ok (env : Env) (req : Request) (fs : FS)
    (ps : ProcessState) (file : FileStorage) (document : DoclingDocument)
    (markdown_text : String) (summary_data : LegalSummaryData)
    (hf : req.file = some file) (hn : ¬ file.filename = "")
    (hconv : env.converter (temp_path file.filename) MAX_PAGES = .ok document)
    (hexp : document.export_to_markdown = .ok markdown_text)
    (ha : (analyze_document env.llm markdown_text).1 = .ok summary_data) :
    process_legal_document env req fs ps =
      ⟨⟨.success true file.filename summary_data, 200⟩,
       fun p => if p = temp_path file.filename then none
                else if p = temp_path file.filename then some file.content
                else fs p,
       [Event.saveFile (temp_path file.filename) file.content,
        Event.convertCall (temp_path file.filename) MAX_PAGES,
        Event.removeFile (temp_path file.filename)] ++
         (analyze_document env.llm markdown_text).2,
       { ps with logLevel := some LOG_INFO, dotenvLoaded := true }⟩ := by
  unfold process_legal_document parse_document
  simp only [hf, hn, hconv, hexp, ha]
  rfl

/-- The analysis trace is the Stage 1 call alone, or the Stage 1 call
followed by the Stage 2 call on the history extended with the single
extraction turn. -/
theorem analyze_events_shape (llm : LLMOracle) (document : String) :
    (analyze_document llm document).2 =
      [Event.stage1Call (initialMessages document)] ∨
    (analyze_document llm document).2 =
      [Event.stage1Call (initialMessages document),
       Event.stage2Call (initialMessages document ++ [extractionTurn])] := by
  unfold analyze_document
  dsimp only
  split
  · left; rfl
  · split
    · left; rfl
    · split
      · right; rfl
      · right; rfl

/-- The paths of the saveFile events of a run, in order. -/
def savedPaths (r : HandlerResult) : List String :=
  r.events.filterMap fun e =>
    match e with
    | .saveFile p _ => some p
    | _ => none

/-- Any run that passes the file checks saves exactly once, to the
temporary path derived from the original filename. -/
theorem savedPaths_run (env : Env) (req : Request) (fs : FS)
    (ps : ProcessState) (file : FileStorage)
    (hf : req.file = some file) (hn : ¬ file.filename = "") :
    savedPaths (process_legal_document env req fs ps) =
      [temp_path file.filename] := by
  cases hconv : env.converter (temp_path file.filename) MAX_PAGES with
  | error e =>
    rw [run_convert_error env req fs ps file e hf hn hconv]
    simp [savedPaths]
  | ok document =>
    cases hexp : document.export_to_markdown with
    | error e =>
      rw [run_export_error env req fs ps file document e hf hn hconv hexp]
      simp [savedPaths]
    | ok markdown_text =>
      cases ha : (analyze_document env.llm markdown_text).1 with
      | error e =>
        rw [run_analyze_error env req fs ps file document markdown_text e
          hf hn hconv hexp ha]
        rcases analyze_events_shape env.llm markdown_text with h | h <;>
          simp [savedPaths, h]
      | ok summary_data =>
        rw [run_analyze_ok env req fs ps file document markdown_text
          summary_data hf hn hconv hexp ha]
        rcases analyze_events_shape env.llm markdown_text with h | h <;>
          simp [savedPaths, h]

/-- C7: the upload is persisted to a temporary path that is a
deterministic function of the original filename alone; two runs whose
uploads carry the same filename each save exactly once, to the same
temporary path, whatever their environments, filesystems, process
states or file contents. -/
theorem temp_path_depends_only_on_filename
    (env1 : Env) (req1 : Request) (fsA : FS) (psA : ProcessState)
    (env2 : Env) (req2 : Request) (fsB : FS) (psB : ProcessState)
    (f1 f2 : FileStorage)
    (h1 : req1.file = some f1) (hn1 : ¬ f1.filename = "")
    (h2 : req2.file = some f2) (hn2 : ¬ f2.filename = "")
    (hsame : f2.filename = f1.filename) :
    savedPaths (process_legal_document env1 req1 fsA psA) =
      [temp_path f1.filename] ∧
    savedPaths (process_legal_document env2 req2 fsB psB) =
      [temp_path f1.filename] := by
  refine ⟨savedPaths_run env1 req1 fsA psA f1 h1 hn1, ?_⟩
  rw [savedPaths_run env2 req2 fsB psB f2 h2 hn2, hsame]

theorem temp_path_depends_only_on_filename_witness :
    savedPaths (process_legal_document (mkEnv ⟨true, 1⟩ summaryA) reqA fs0 ps0)
      = [temp_path "a.pdf"] ∧
    savedPaths (process_legal_document (envFailConvert "boom")
        ⟨some ⟨"a.pdf", "other-content"⟩⟩ fs0 ps0)
      = [temp_path "a.pdf"] :=
  temp_path_depends_only_on_filename (mkEnv ⟨true, 1⟩ summaryA) reqA fs0 ps0
    (envFailConvert "boom") ⟨some ⟨"a.pdf", "other-content"⟩⟩ fs0 ps0
    fileA ⟨"a.pdf", "other-content"⟩ rfl (by decide) rfl (by decide) rfl

/-- C8: the converter is always invoked with the page ceiling
MAX_PAGES, which equals 20: every run that passes the file checks
records a convert call with ceiling 20, and when the converter raises
(conversion failure or page overflow) the error propagates to the
top-level handler and becomes the 500 response, not a locally handled
condition. -/
theorem converter_invoked_with_page_ceiling (env : Env) (req : Request)
    (fs : FS) (ps : ProcessState) (file : FileStorage)
    (hf : req.file = some file) (hn : ¬ file.filename = "") :
    MAX_PAGES = 20 ∧
    Event.convertCall (temp_path file.filename) 20 ∈
      (process_legal_document env req fs ps).events ∧
    (∀ e, env.converter (temp_path file.filename) MAX_PAGES = .error e →
      (process_legal_document env req fs ps).response = ⟨.error e, 500⟩) := by
  refine ⟨rfl, ?_, ?_⟩
  · cases hconv : env.converter (temp_path file.filename) MAX_PAGES with
    | error e =>
      rw [run_convert_error env req fs ps file e hf hn hconv]
      simp [MAX_PAGES]
    | ok document =>
      cases hexp : document.export_to_markdown with
      | error e =>
        rw [run_export_error env req fs ps file document e hf hn hconv hexp]
        simp [MAX_PAGES]
      | ok markdown_text =>
        cases ha : (analyze_document env.llm markdown_text).1 with
        | error e =>
          rw [run_analyze_error env req fs ps file document markdown_text e
            hf hn hconv hexp ha]
          simp [MAX_PAGES]
        | ok summary_data =>
          rw [run_analyze_ok env req fs ps file document markdown_text
            summary_data hf hn hconv hexp ha]
          simp [MAX_PAGES]
  · intro e hconv
    rw [run_convert_error env req fs ps file e hf hn hconv]

theorem converter_invoked_with_page_ceiling_witness :
    Event.convertCall (temp_path "a.pdf") 20 ∈
      (process_legal_document (envFailConvert "too many pages") reqA fs0
        ps0).events ∧
    (process_legal_document (envFailConvert "too many pages") reqA fs0
        ps0).response = ⟨.error "too many pages", 500⟩ :=
  ⟨(converter_invoked_with_page_ceiling (envFailConvert "too many pages") reqA
      fs0 ps0 fileA rfl (by decide)).2.1,
   (converter_invoked_with_page_ceiling (envFailConvert "too many pages") reqA
      fs0 ps0 fileA rfl (by decide)).2.2 "too many pages" rfl⟩

/-- If Stage 1 parses a check that is not a valid document or has
confidence strictly below 0.8, analyze_document raises the ValueError
and issues no Stage 2 call. -/
theorem analyze_gate_fail (llm : LLMOracle) (document : String)
    (check : LegalDocumentCheck)
    (hcheck : llm.parseCheck (initialMessages document) = .ok check)
    (hfail : check.valid_document = false
        ∨ check.confidence_level < (0.8 : ℚ)) :
    analyze_document llm document =
      (.error "Failed to identify as a legal document",
       [Event.stage1Call (initialMessages document)]) := by
  unfold analyze_document
  simp only [hcheck]
  rw [if_pos hfail]

/-- If Stage 1 parses a check that is a valid document with confidence
not below 0.8, analyze_document appends the extraction turn and returns
whatever Stage 2 returns, having called both stages. -/
theorem analyze_gate_pass (llm : LLMOracle) (document : String)
    (check : LegalDocumentCheck)
    (hcheck : llm.parseCheck (initialMessages document) = .ok check)
    (hvalid : check.valid_document = true)
    (hconf : ¬ check.confidence_level < (0.8 : ℚ)) :
    analyze_document llm document =
      (llm.parseSummary (initialMessages document ++ [extractionTurn]),
       [Event.stage1Call (initialMessages document),
        Event.stage2Call (initialMessages document ++ [extractionTurn])]) := by
  have hgate : ¬ (check.valid_document = false
      ∨ check.confidence_level < (0.8 : ℚ)) := by
    rintro (h | h)
    · rw [hvalid] at h
      cases h
    · exact hconf h
  unfold analyze_document
  simp only [hcheck]
  rw [if_neg hgate]
  cases hs : llm.parseSummary (initialMessages document ++ [extractionTurn]) with
  | error e => simp [hs]
  | ok s => simp [hs]

/-- Once conversion and export have succeeded, the run's event trace is
the save, convert and remove events followed by the analysis trace,
whatever the analysis returns. -/
theorem run_events_after_export (env : Env) (req : Request) (fs : FS)
    (ps : ProcessState) (file : FileStorage) (document : DoclingDocument)
    (markdown_text : String)
    (hf : req.file = some file) (hn : ¬ file.filename = "")
    (hconv : env.converter (temp_path file.filename) MAX_PAGES = .ok document)
    (hexp : document.export_to_markdown = .ok markdown_text) :
    (process_legal_document env req fs ps).events =
      [Event.saveFile (temp_path file.filename) file.content,
       Event.convertCall (temp_path file.filename) MAX_PAGES,
       Event.removeFile (temp_path file.filename)] ++
        (analyze_document env.llm markdown_text).2 := by
  cases ha : (analyze_document env.llm markdown_text).1 with
  | error e =>
    rw [run_analyze_error env req fs ps file document markdown_text e
      hf hn hconv hexp ha]
  | ok s =>
    rw [run_analyze_ok env req fs ps file document markdown_text s
      hf hn hconv hexp ha]

/-- C1: whenever the Stage 1 validation result has valid_document false
or confidence_level strictly below the fixed 0.8 threshold, the handler
aborts the whole request with the validation-failure error, surfaced as
an HTTP 500 response, and no Stage 2 extraction call appears in the
run's trace. -/
theorem validation_failure_aborts (env : Env) (req : Request) (fs : FS)
    (ps : ProcessState) (file : FileStorage) (document : DoclingDocument)
    (markdown_text : String) (check : LegalDocumentCheck)
    (hf : req.file = some file) (hn : ¬ file.filename = "")
    (hconv : env.converter (temp_path file.filename) MAX_PAGES = .ok document)
    (hexp : document.export_to_markdown = .ok markdown_text)
    (hcheck : env.llm.parseCheck (initialMessages markdown_text) = .ok check)
    (hfail : check.valid_document = false
        ∨ check.confidence_level < (0.8 : ℚ)) :
    (process_legal_document env req fs ps).response =
      ⟨.error "Failed to identify as a legal document", 500⟩ ∧
    ∀ msgs, Event.stage2Call msgs ∉
      (process_legal_document env req fs ps).events := by
  have hA := analyze_gate_fail env.llm markdown_text check hcheck hfail
  have ha1 : (analyze_document env.llm markdown_text).1 =
      .error "Failed to identify as a legal document" := by rw [hA]
  constructor
  · rw [run_analyze_error env req fs ps file document markdown_text _
      hf hn hconv hexp ha1]
  · intro msgs
    rw [run_events_after_export env req fs ps file document markdown_text
      hf hn hconv hexp, hA]
    simp

theorem validation_failure_aborts_witness :
    (process_legal_document (mkEnv ⟨false, 1⟩ summaryA) reqA fs0 ps0).response =
      ⟨.error "Failed to identify as a legal document", 500⟩ ∧
    Event.stage2Call (initialMessages "md" ++ [extractionTurn]) ∉
      (process_legal_document (mkEnv ⟨false, 1⟩ summaryA) reqA fs0 ps0).events :=
  ⟨(validation_failure_aborts (mkEnv ⟨false, 1⟩ summaryA) reqA fs0 ps0 fileA
      docA "md" ⟨false, 1⟩ rfl (by decide) rfl rfl rfl (Or.inl rfl)).1,
   (validation_failure_aborts (mkEnv ⟨false, 1⟩ summaryA) reqA fs0 ps0 fileA
      docA "md" ⟨false, 1⟩ rfl (by decide) rfl rfl rfl (Or.inl rfl)).2
     (initialMessages "md" ++ [extractionTurn])⟩

/-- C10: a Stage 1 result with valid_document true and confidence_level
exactly 0.8 passes the strict less-than gate: the analysis proceeds to
Stage 2, issuing the extraction call on the extended history and
returning its result. -/
theorem boundary_confidence_passes (llm : LLMOracle) (document : String)
    (check : LegalDocumentCheck)
    (hcheck : llm.parseCheck (initialMessages document) = .ok check)
    (hvalid : check.valid_document = true)
    (hconf : check.confidence_level = (0.8 : ℚ)) :
    (analyze_document llm document).1 =
      llm.parseSummary (initialMessages document ++ [extractionTurn]) ∧
    Event.stage2Call (initialMessages document ++ [extractionTurn]) ∈
      (analyze_document llm document).2 := by
  have h := analyze_gate_pass llm document check hcheck hvalid
    (by rw [hconf]; exact lt_irrefl _)
  rw [h]
  exact ⟨rfl, by simp⟩

theorem boundary_confidence_passes_witness :
    (analyze_document (mkEnv ⟨true, 0.8⟩ summaryA).llm "md").1 =
      (mkEnv ⟨true, 0.8⟩ summaryA).llm.parseSummary
        (initialMessages "md" ++ [extractionTurn]) ∧
    Event.stage2Call (initialMessages "md" ++ [extractionTurn]) ∈
      (analyze_document (mkEnv ⟨true, 0.8⟩ summaryA).llm "md").2 :=
  boundary_confidence_passes (mkEnv ⟨true, 0.8⟩ summaryA).llm "md"
    ⟨true, 0.8⟩ rfl rfl rfl

/-- C2: when every step succeeds (file present with a nonempty name,
conversion and export succeed, Stage 1 passes the gate and Stage 2
parses a summary), the handler answers HTTP 200 whose body is exactly
the success flag set to true, document_name equal to the uploaded
file's original filename, and summary equal to the Stage 2 result. -/
theorem success_response (env : Env) (req : Request) (fs : FS)
    (ps : ProcessState) (file : FileStorage) (document : DoclingDocument)
    (markdown_text : String) (check : LegalDocumentCheck)
    (summary_data : LegalSummaryData)
    (hf : req.file = some file) (hn : ¬ file.filename = "")
    (hconv : env.converter (temp_path file.filename) MAX_PAGES = .ok document)
    (hexp : document.export_to_markdown = .ok markdown_text)
    (hcheck : env.llm.parseCheck (initialMessages markdown_text) = .ok check)
    (hvalid : check.valid_document = true)
    (hconf : ¬ check.confidence_level < (0.8 : ℚ))
    (hsum : env.llm.parseSummary (initialMessages markdown_text ++
      [extractionTurn]) = .ok summary_data) :
    (process_legal_document env req fs ps).response =
      ⟨.success true file.filename summary_data, 200⟩ := by
  have hA := analyze_gate_pass env.llm markdown_text check hcheck hvalid hconf
  have ha1 : (analyze_document env.llm markdown_text).1 = .ok summary_data := by
    rw [hA]
    exact hsum
  rw [run_analyze_ok env req fs ps file document markdown_text summary_data
    hf hn hconv hexp ha1]

/-- The sample confidence 0.95 is not below the 0.8 threshold. -/
theorem conf095_not_lt : ¬ ((0.95 : ℚ) < 0.8) := by norm_num

theorem success_response_witness :
    (process_legal_document (mkEnv ⟨true, 0.95⟩ summaryA) reqA fs0
        ps0).response =
      ⟨.success true "a.pdf" summaryA, 200⟩ :=
  success_response (mkEnv ⟨true, 0.95⟩ summaryA) reqA fs0 ps0 fileA docA "md"
    ⟨true, 0.95⟩ summaryA rfl (by decide) rfl rfl rfl rfl conf095_not_lt rfl

/-- Recognizer for Stage 1 call events. -/
def isStage1 : Event → Bool
  | .stage1Call _ => true
  | _ => false

/-- Recognizer for Stage 2 call events. -/
def isStage2 : Event → Bool
  | .stage2Call _ => true
  | _ => false

/-- C6: a request that passes Stage 1 validation issues exactly one
Stage 2 structured-output request, on the Stage 1 message history
extended with exactly the one extraction instruction turn; any
LegalSummaryData the model returns, in particular one with every
optional field absent, is accepted as the success payload rather than
treated as an error. -/
theorem stage2_single_appended_turn (env : Env) (req : Request) (fs : FS)
    (ps : ProcessState) (file : FileStorage) (document : DoclingDocument)
    (markdown_text : String) (check : LegalDocumentCheck)
    (hf : req.file = some file) (hn : ¬ file.filename = "")
    (hconv : env.converter (temp_path file.filename) MAX_PAGES = .ok document)
    (hexp : document.export_to_markdown = .ok markdown_text)
    (hcheck : env.llm.parseCheck (initialMessages markdown_text) = .ok check)
    (hvalid : check.valid_document = true)
    (hconf : ¬ check.confidence_level < (0.8 : ℚ)) :
    ((process_legal_document env req fs ps).events.filter isStage1) =
      [Event.stage1Call (initialMessages markdown_text)] ∧
    ((process_legal_document env req fs ps).events.filter isStage2) =
      [Event.stage2Call (initialMessages markdown_text ++ [extractionTurn])] ∧
    (∀ summary_data, env.llm.parseSummary (initialMessages markdown_text ++
        [extractionTurn]) = .ok summary_data →
      (process_legal_document env req fs ps).response =
        ⟨.success true file.filename summary_data, 200⟩) := by
  have hA := analyze_gate_pass env.llm markdown_text check hcheck hvalid hconf
  have ha2 : (analyze_document env.llm markdown_text).2 =
      [Event.stage1Call (initialMessages markdown_text),
       Event.stage2Call (initialMessages markdown_text ++ [extractionTurn])] := by
    rw [hA]
  refine ⟨?_, ?_, ?_⟩
  · rw [run_events_after_export env req fs ps file document markdown_text
      hf hn hconv hexp, ha2]
    rfl
  · rw [run_events_after_export env req fs ps file document markdown_text
      hf hn hconv hexp, ha2]
    rfl
  · intro summary_data hsum
    have ha1 : (analyze_document env.llm markdown_text).1 = .ok summary_data := by
      rw [hA]
      exact hsum
    rw [run_analyze_ok env req fs ps file document markdown_text summary_data
      hf hn hconv hexp ha1]

theorem stage2_single_appended_turn_witness :
    ((process_legal_document (mkEnv ⟨true, 0.95⟩ summaryOptsNone) reqA fs0
        ps0).events.filter isStage2) =
      [Event.stage2Call (initialMessages "md" ++ [extractionTurn])] ∧
    (process_legal_document (mkEnv ⟨true, 0.95⟩ summaryOptsNone) reqA fs0
        ps0).response =
      ⟨.success true "a.pdf" summaryOptsNone, 200⟩ :=
  ⟨(stage2_single_appended_turn (mkEnv ⟨true, 0.95⟩ summaryOptsNone) reqA fs0
      ps0 fileA docA "md" ⟨true, 0.95⟩ rfl (by decide) rfl rfl rfl rfl
      conf095_not_lt).2.1,
   (stage2_single_appended_turn (mkEnv ⟨true, 0.95⟩ summaryOptsNone) reqA fs0
      ps0 fileA docA "md" ⟨true, 0.95⟩ rfl (by decide) rfl rfl rfl rfl
      conf095_not_lt).2.2 summaryOptsNone rfl⟩

/-- C5: once conversion and markdown export have both succeeded the
temporary file has been deleted, so on every successful run it no
longer exists on disk when the response is returned; the deletion is
reached only on that success path, so a conversion or export error
leaves the temporary file on disk with the uploaded content. -/
theorem temp_file_cleanup (env : Env) (req : Request) (fs : FS)
    (ps : ProcessState) (file : FileStorage)
    (hf : req.file = some file) (hn : ¬ file.filename = "") :
    (∀ document markdown_text,
      env.converter (temp_path file.filename) MAX_PAGES = .ok document →
      document.export_to_markdown = .ok markdown_text →
      (process_legal_document env req fs ps).fs (temp_path file.filename) =
        none) ∧
    (∀ e, env.converter (temp_path file.filename) MAX_PAGES = .error e →
      (process_legal_document env req fs ps).fs (temp_path file.filename) =
        some file.content) ∧
    (∀ document e,
      env.converter (temp_path file.filename) MAX_PAGES = .ok document →
      document.export_to_markdown = .error e →
      (process_legal_document env req fs ps).fs (temp_path file.filename) =
        some file.content) := by
  refine ⟨?_, ?_, ?_⟩
  · intro document markdown_text hconv hexp
    cases ha : (analyze_document env.llm markdown_text).1 with
    | error e =>
      rw [run_analyze_error env req fs ps file document markdown_text e
        hf hn hconv hexp ha]
      simp
    | ok s =>
      rw [run_analyze_ok env req fs ps file document markdown_text s
        hf hn hconv hexp ha]
      simp
  · intro e hconv
    rw [run_convert_error env req fs ps file e hf hn hconv]
    simp
  · intro document e hconv hexp
    rw [run_export_error env req fs ps file document e hf hn hconv hexp]
    simp

theorem temp_file_cleanup_witness :
    (process_legal_document (mkEnv ⟨true, 0.95⟩ summaryA) reqA fs0 ps0).fs
      (temp_path "a.pdf") = none ∧
    (process_legal_document (envFailConvert "boom") reqA fs0 ps0).fs
      (temp_path "a.pdf") = some "content-bytes" :=
  ⟨(temp_file_cleanup (mkEnv ⟨true, 0.95⟩ summaryA) reqA fs0 ps0 fileA rfl
      (by decide)).1 docA "md" rfl rfl,
   (temp_file_cleanup (envFailConvert "boom") reqA fs0 ps0 fileA rfl
      (by decide)).2.1 "boom" rfl⟩

/-- C4: every error raised during steps 2 to 6 (conversion, markdown
export, either model call, or the validation gate) is caught at the
single top-level boundary and answered as HTTP 500 with the error
envelope carrying that error's message; a 500 response occurs only when
such an error was raised; a 400 response occurs only in the two
explicitly checked client-error cases with their exact bodies; and no
status other than 200, 400 and 500 is ever produced. -/
theorem top_level_exception_boundary (env : Env) (req : Request) (fs : FS)
    (ps : ProcessState) :
    (∀ e, stepError env req = some e →
      (process_legal_document env req fs ps).response = ⟨.error e, 500⟩) ∧
    ((process_legal_document env req fs ps).response.status = 500 →
      ∃ e, stepError env req = some e ∧
        (process_legal_document env req fs ps).response.body = .error e) ∧
    ((process_legal_document env req fs ps).response.status = 400 →
      (req.file = none ∧
        (process_legal_document env req fs ps).response =
          ⟨.error "No file provided", 400⟩) ∨
      (∃ file, req.file = some file ∧ file.filename = "" ∧
        (process_legal_document env req fs ps).response =
          ⟨.error "No file selected", 400⟩)) ∧
    ((process_legal_document env req fs ps).response.status = 200 ∨
     (process_legal_document env req fs ps).response.status = 400 ∨
     (process_legal_document env req fs ps).response.status = 500) := by
  cases hf : req.file with
  | none =>
    have hr : (process_legal_document env req fs ps).response =
        ⟨.error "No file provided", 400⟩ := by
      simp [process_legal_document, hf]
    have hs : stepError env req = none := by
      simp [stepError, hf]
    refine ⟨?_, ?_, ?_, ?_⟩
    · intro e he
      rw [hs] at he
      exact Option.noConfusion he
    · intro h500
      rw [hr] at h500
      exact absurd h500 (by decide)
    · intro _
      exact Or.inl ⟨rfl, hr⟩
    · right; left; rw [hr]
  | some file =>
    by_cases hn : file.filename = ""
    · have hr : (process_legal_document env req fs ps).response =
          ⟨.error "No file selected", 400⟩ := by
        simp [process_legal_document, hf, hn]
      have hs : stepError env req = none := by
        simp [stepError, hf, hn]
      refine ⟨?_, ?_, ?_, ?_⟩
      · intro e he
        rw [hs] at he
        exact Option.noConfusion he
      · intro h500
        rw [hr] at h500
        exact absurd h500 (by decide)
      · intro _
        exact Or.inr ⟨file, rfl, hn, hr⟩
      · right; left; rw [hr]
    · cases hconv : env.converter (temp_path file.filename) MAX_PAGES with
      | error e0 =>
        have hr := run_convert_error env req fs ps file e0 hf hn hconv
        have hs : stepError env req = some e0 := by
          simp [stepError, parse_document, hf, hn, hconv]
        refine ⟨?_, ?_, ?_, ?_⟩
        · intro e he
          rw [hs] at he
          injection he with he
          subst he
          rw [hr]
        · intro _
          exact ⟨e0, hs, by rw [hr]⟩
        · intro h400
          rw [hr] at h400
          simp at h400
        · right; right; rw [hr]
      | ok document =>
        cases hexp : document.export_to_markdown with
        | error e0 =>
          have hr := run_export_error env req fs ps file document e0
            hf hn hconv hexp
          have hs : stepError env req = some e0 := by
            simp [stepError, parse_document, hf, hn, hconv, hexp]
          refine ⟨?_, ?_, ?_, ?_⟩
          · intro e he
            rw [hs] at he
            injection he with he
            subst he
            rw [hr]
          · intro _
            exact ⟨e0, hs, by rw [hr]⟩
          · intro h400
            rw [hr] at h400
            simp at h400
          · right; right; rw [hr]
        | ok markdown_text =>
          cases ha : (analyze_document env.llm markdown_text).1 with
          | error e0 =>
            have hr := run_analyze_error env req fs ps file document
              markdown_text e0 hf hn hconv hexp ha
            have hs : stepError env req = some e0 := by
              simp [stepError, parse_document, hf, hn, hconv, hexp, ha]
            refine ⟨?_, ?_, ?_, ?_⟩
            · intro e he
              rw [hs] at he
              injection he with he
              subst he
              rw [hr]
            · intro _
              exact ⟨e0, hs, by rw [hr]⟩
            · intro h400
              rw [hr] at h400
              simp at h400
            · right; right; rw [hr]
          | ok s =>
            have hr := run_analyze_ok env req fs ps file document
              markdown_text s hf hn hconv hexp ha
            have hs : stepError env req = none := by
              simp [stepError, parse_document, hf, hn, hconv, hexp, ha]
            refine ⟨?_, ?_, ?_, ?_⟩
            · intro e he
              rw [hs] at he
              exact Option.noConfusion he
            · intro h500
              rw [hr] at h500
              simp at h500
            · intro h400
              rw [hr] at h400
              simp at h400
            · left; rw [hr]

theorem top_level_exception_boundary_witness :
    stepError (envFailConvert "boom") reqA = some "boom" ∧
    (process_legal_document (envFailConvert "boom") reqA fs0 ps0).response =
      ⟨.error "boom", 500⟩ :=
  ⟨rfl,
   (top_level_exception_boundary (envFailConvert "boom") reqA fs0 ps0).1
     "boom" rfl⟩

end NILDocParser
